import Mathlib

/-!
# Option parsing of the OpenGL ES triangle example

A shallow embedding of the command-line handling of `src/triangle-opengles.c`:
`usage` (lines 74-84), `parse_int` (lines 97-109) and the option loop of `main`
together with the five `printf` calls that report the configuration
(lines 111-195).  The windowing and rendering code after line 195 is not modelled.

Conventions of the embedding.

* The five local `int` variables of `main` form a `Config`; the process state
  (`Proc`) adds what has been written to standard output and to the error
  stream, one list entry per `printf`/`fprintf` call.
* `exit` never returns, so every embedded function yields a `Flow`: either
  control comes back to the caller (`Flow.running`) or the process has ended
  with a status (`Flow.exited`).
* `getopt_long` and `atoi` are library functions.  The scanner is represented
  by the sequence of its results: each `Scanned` value is one return value
  `ch` of `getopt_long` with the `optarg` it left behind; the end of the list
  is the return value `-1`.  With the option table of `main`, `-w 800` is
  scanned as `ch = 'w'`, `--width=800` as `ch = WINDOW_WIDTH`, and an unknown
  option or a missing argument as `ch = '?'`.  The conversion `atoi` is an
  argument of the embedded functions; `atoi` below is a reference model of it.
-/

namespace Triangle

/-! ## Data model -/

/-- The five configuration variables declared at the top of `main`. -/
structure Config where
  width : Int
  height : Int
  x : Int
  y : Int
  z : Int
  deriving DecidableEq, Repr

/-- The variable a call `parse_int(&v, ...)` points at. -/
inductive Var where
  | width | height | x | y | z
  deriving DecidableEq, Repr

/-- The store `*n = t` through a pointer to one of the five variables. -/
def Config.assign (c : Config) (n : Var) (t : Int) : Config :=
  match n with
  | Var.width => { c with width := t }
  | Var.height => { c with height := t }
  | Var.x => { c with x := t }
  | Var.y => { c with y := t }
  | Var.z => { c with z := t }

/-- Process state: the variables of `main`, and the text written so far to
standard output and to the error stream (one entry per call). -/
structure Proc where
  cfg : Config
  out : List String
  err : List String
  deriving DecidableEq, Repr

/-- Result of running a piece of code that may call `exit`. -/
inductive Flow where
  | running (s : Proc)
  | exited (status : Int) (s : Proc)
  deriving DecidableEq, Repr

/-- One result of `getopt_long`: its return value and the `optarg` it set. -/
structure Scanned where
  ch : Int
  optarg : String
  deriving DecidableEq, Repr

def EXIT_SUCCESS : Int := 0
def EXIT_FAILURE : Int := 1

/-- The anonymous `enum` of `main`. -/
def WINDOW_WIDTH : Int := 0
def WINDOW_HEIGHT : Int := 1
def CELLS_IN_X : Int := 2
def CELLS_IN_Y : Int := 3
def LAYERS : Int := 4
def HELP : Int := 5

/-- A character constant as the `int` it denotes in C. -/
def chr (c : Char) : Int := (c.toNat : Int)

/-- One row of `struct option`: name, `has_arg`, `val` (the `flag` member is `NULL`
in every row). -/
structure LongOption where
  name : String
  has_arg : Nat
  val : Int
  deriving DecidableEq, Repr

/-- The table `options[]` of `main`, without the terminating null row. -/
def options : List LongOption :=
  [ { name := "width", has_arg := 1, val := WINDOW_WIDTH },
    { name := "height", has_arg := 1, val := WINDOW_HEIGHT },
    { name := "cells-in-x", has_arg := 1, val := CELLS_IN_X },
    { name := "cells-in-y", has_arg := 1, val := CELLS_IN_Y },
    { name := "layers", has_arg := 1, val := LAYERS },
    { name := "help", has_arg := 0, val := HELP } ]

/-- The short-option string passed to `getopt_long`. -/
def optstring : String := "w:g:x:y:z:h"

/-! ## Library model: `atoi` -/

/-- The C `isspace` in the "C" locale. -/
def isspace (c : Char) : Bool :=
  c = ' ' || c = '\t' || c = '\n' || c = '\x0b' || c = '\x0c' || c = '\r'

/-- Value of the longest prefix of decimal digits, continuing from `acc`. -/
def digitsValue : List Char → Nat → Nat
  | [], acc => acc
  | c :: cs, acc =>
    if c.isDigit then digitsValue cs (acc * 10 + (c.toNat - '0'.toNat)) else acc

/-- Reference model of `atoi`: skip white space, read an optional sign and the
decimal digits that follow; no digits give 0.  A value outside the range of `int`
is undefined in C; here it is treated as `(int) strtol(s, NULL, 10)` with a 64-bit
`long` (saturate, then keep the low 32 bits). -/
def atoi (s : String) : Int :=
  let cs := s.toList.dropWhile isspace
  let v : Int :=
    match cs with
    | '-' :: r => - (digitsValue r 0 : Int)
    | '+' :: r => (digitsValue r 0 : Int)
    | r => (digitsValue r 0 : Int)
  let l : Int := max (-(2 ^ 63)) (min v (2 ^ 63 - 1))
  (l + 2 ^ 31) % 2 ^ 32 - 2 ^ 31

/-! ## The program -/

/-- The eight lines printed by `usage`, one per `printf` call. -/
def usage_text : List String :=
  [ "Usage: triangle-test [OPTION]...\n",
    "Options:\n",
    "  -w, --width=WIDTH        the window width in pixels, default: 1024\n",
    "  -g, --height=HEIGHT      the window height in pixels, default: 768\n",
    "  -x, --cell-in-x=X        the number of grid cells in horizontal, default: 16\n",
    "  -y, --cell-in-y=Y        the number of grid cells in vertical, default: 12\n",
    "  -z, --layers=Z           the number of layers, default: 4\n",
    "  -h, --help               show this help\n" ]

/-- The function `usage`: writes the usage text to standard output. -/
def usage (s : Proc) : Proc :=
  { s with out := s.out ++ usage_text }

/-- The function `parse_int(n, name)`, reading the global `optarg`.  The call of `exit`
stands after the `if`/`else`, outside both branches. -/
def parse_int (conv : String → Int) (optarg : String) (n : Var) (name : String)
    (s : Proc) : Flow :=
  let t := conv optarg
  let s1 : Proc :=
    if t > 0 then
      { s with cfg := s.cfg.assign n t }
    else
      { s with err := s.err ++ ["`" ++ name ++ "` must be a number greater than zero!\n"] }
  Flow.exited EXIT_FAILURE s1

/-- The `switch (ch)` in the loop of `main`: one scanned option. -/
def dispatch (conv : String → Int) (o : Scanned) (s : Proc) : Flow :=
  if o.ch = chr 'w' ∨ o.ch = WINDOW_WIDTH then
    if o.optarg ≠ "-" then parse_int conv o.optarg Var.width "width" s else Flow.running s
  else if o.ch = chr 'g' ∨ o.ch = WINDOW_HEIGHT then
    if o.optarg ≠ "-" then parse_int conv o.optarg Var.height "height" s else Flow.running s
  else if o.ch = chr 'x' ∨ o.ch = CELLS_IN_X then
    if o.optarg ≠ "-" then parse_int conv o.optarg Var.x "cells-in-x" s else Flow.running s
  else if o.ch = chr 'y' ∨ o.ch = CELLS_IN_Y then
    if o.optarg ≠ "-" then parse_int conv o.optarg Var.y "cells-in-y" s else Flow.running s
  else if o.ch = chr 'z' ∨ o.ch = LAYERS then
    if o.optarg ≠ "-" then parse_int conv o.optarg Var.z "layers" s else Flow.running s
  else if o.ch = chr 'h' ∨ o.ch = HELP then
    Flow.exited EXIT_SUCCESS (usage s)
  else
    Flow.exited EXIT_FAILURE (usage s)

/-- The `while ((ch = getopt_long(...)) != -1)` loop over the scanner results. -/
def optionLoop (conv : String → Int) : List Scanned → Proc → Flow
  | [], s => Flow.running s
  | o :: rest, s =>
    match dispatch conv o s with
    | Flow.running s1 => optionLoop conv rest s1
    | Flow.exited status s1 => Flow.exited status s1

/-- The five `printf` calls after the loop. -/
def printConfig (s : Proc) : Proc :=
  { s with out := s.out ++
      [ "window width: " ++ toString s.cfg.width ++ "\n",
        "window height: " ++ toString s.cfg.height ++ "\n",
        "cells in x: " ++ toString s.cfg.x ++ "\n",
        "cells in y: " ++ toString s.cfg.y ++ "\n",
        "layers: " ++ toString s.cfg.z ++ "\n" ] }

/-- The initial values of the five variables of `main`. -/
def defaults : Config :=
  { width := 1024, height := 768, x := 16, y := 12, z := 4 }

/-- Process state at the start of `main`: nothing written yet. -/
def start : Proc :=
  { cfg := defaults, out := [], err := [] }

/-- The function `main` up to line 195: option loop, then the report of the
configuration.  `Flow.running` is the "completed" state, from which the program
goes on to open the window. -/
def main (conv : String → Int) (opts : List Scanned) : Flow :=
  match optionLoop conv opts start with
  | Flow.running s => Flow.running (printConfig s)
  | Flow.exited status s => Flow.exited status s

/-! ## Vocabulary for stating the properties -/

/-- The ten return values of the scanner that select a numeric option, each with the
variable and the name that the matching `case` passes to `parse_int`: the short
letter and the `val` of the long option share one branch of the `switch`. -/
def numericForms : List (Int × Var × String) :=
  [ (chr 'w', Var.width, "width"), (WINDOW_WIDTH, Var.width, "width"),
    (chr 'g', Var.height, "height"), (WINDOW_HEIGHT, Var.height, "height"),
    (chr 'x', Var.x, "cells-in-x"), (CELLS_IN_X, Var.x, "cells-in-x"),
    (chr 'y', Var.y, "cells-in-y"), (CELLS_IN_Y, Var.y, "cells-in-y"),
    (chr 'z', Var.z, "layers"), (LAYERS, Var.z, "layers") ]

/-- Every return value of the scanner that has a `case` label of its own. -/
def recognizedValues : List Int :=
  numericForms.map (fun f => f.1) ++ [chr 'h', HELP]

/-- A numeric option, short or long, whose value is the placeholder "-". -/
def placeholder (o : Scanned) : Bool :=
  decide (o.ch ∈ numericForms.map (fun f => f.1)) && decide (o.optarg = "-")

/-- The text that follows the first occurrence of `pat`, if there is one. -/
def afterPattern (pat : List Char) : List Char → Option (List Char)
  | [] => if pat = [] then some [] else none
  | c :: cs => if pat.isPrefixOf (c :: cs) then some ((c :: cs).drop pat.length)
               else afterPattern pat cs

/-- Reading of one line of the usage text, "  -c, --name[=ARG]   description[, default: N]":
the short letter, the long name, and the default value when one is shown. -/
def usageEntry (line : String) : Option (Char × String × Option Nat) :=
  match line.toList with
  | ' ' :: ' ' :: '-' :: c :: ',' :: ' ' :: '-' :: '-' :: rest =>
    some (c, String.mk (rest.takeWhile (fun a => a != '=' && a != ' ')),
          (afterPattern "default: ".toList rest).map (fun d => digitsValue d 0))
  | _ => none

/-- The option lines of the usage text, as read by `usageEntry`. -/
def usageEntries : List (Char × String × Option Nat) :=
  usage_text.filterMap usageEntry

/-! ## Auxiliary lemmas -/

theorem parse_int_exits (conv : String → Int) (optarg : String) (n : Var) (name : String)
    (s : Proc) :
    ∃ s1, parse_int conv optarg n name s = Flow.exited EXIT_FAILURE s1 ∧ s1.out = s.out := by
  unfold parse_int
  by_cases h : conv optarg > 0
  · exact ⟨_, rfl, by simp [h]⟩
  · exact ⟨_, rfl, by simp [h]⟩

theorem parse_int_valid (conv : String → Int) (optarg : String) (n : Var) (name : String)
    (s : Proc) (h : 0 < conv optarg) :
    parse_int conv optarg n name s =
      Flow.exited EXIT_FAILURE { s with cfg := s.cfg.assign n (conv optarg) } := by
  simp [parse_int, h]

theorem parse_int_invalid (conv : String → Int) (optarg : String) (n : Var) (name : String)
    (s : Proc) (h : conv optarg ≤ 0) :
    parse_int conv optarg n name s =
      Flow.exited EXIT_FAILURE
        { s with err := s.err ++ ["`" ++ name ++ "` must be a number greater than zero!\n"] } := by
  have h1 : ¬ conv optarg > 0 := not_lt.mpr h
  simp [parse_int, h1]

theorem dispatch_numeric (conv : String → Int) (f : Int × Var × String)
    (hf : f ∈ numericForms) (optarg : String) (s : Proc) :
    dispatch conv ⟨f.1, optarg⟩ s =
      if optarg ≠ "-" then parse_int conv optarg f.2.1 f.2.2 s else Flow.running s := by
  simp only [numericForms, List.mem_cons, List.mem_singleton, List.not_mem_nil, or_false] at hf
  rcases hf with rfl | rfl | rfl | rfl | rfl | rfl | rfl | rfl | rfl | rfl <;>
    simp [dispatch, chr, WINDOW_WIDTH, WINDOW_HEIGHT, CELLS_IN_X, CELLS_IN_Y, LAYERS, HELP]

theorem mem_numericForms_of_ch (o : Scanned)
    (h : o.ch ∈ numericForms.map (fun f => f.1)) :
    ∃ f ∈ numericForms, o = ⟨f.1, o.optarg⟩ := by
  rcases List.mem_map.mp h with ⟨f, hf, hfo⟩
  exact ⟨f, hf, by cases o; simp_all⟩

theorem dispatch_placeholder (conv : String → Int) (o : Scanned) (s : Proc)
    (h : placeholder o = true) : dispatch conv o s = Flow.running s := by
  simp only [placeholder, Bool.and_eq_true, decide_eq_true_eq] at h
  rcases mem_numericForms_of_ch o h.1 with ⟨f, hf, ho⟩
  rw [ho, dispatch_numeric conv f hf]
  simp [h.2]

theorem dispatch_help (conv : String → Int) (o : Scanned) (s : Proc)
    (h : o.ch = chr 'h' ∨ o.ch = HELP) :
    dispatch conv o s = Flow.exited EXIT_SUCCESS (usage s) := by
  rcases h with h | h <;>
    simp [dispatch, h, chr, WINDOW_WIDTH, WINDOW_HEIGHT, CELLS_IN_X, CELLS_IN_Y, LAYERS, HELP]

theorem dispatch_unrecognized (conv : String → Int) (o : Scanned) (s : Proc)
    (h : o.ch ∉ recognizedValues) :
    dispatch conv o s = Flow.exited EXIT_FAILURE (usage s) := by
  simp [recognizedValues, numericForms, chr, WINDOW_WIDTH, WINDOW_HEIGHT, CELLS_IN_X,
    CELLS_IN_Y, LAYERS, HELP] at h
  simp [dispatch, h, chr, WINDOW_WIDTH, WINDOW_HEIGHT, CELLS_IN_X, CELLS_IN_Y, LAYERS, HELP]

/-- A scanned option that is not a placeholder ends the process. -/
theorem dispatch_exits (conv : String → Int) (o : Scanned) (s : Proc)
    (h : placeholder o = false) :
    ∃ status s1, dispatch conv o s = Flow.exited status s1 := by
  by_cases hn : o.ch ∈ numericForms.map (fun f => f.1)
  · have harg : o.optarg ≠ "-" := by
      intro heq
      simp [placeholder, hn, heq] at h
    rcases mem_numericForms_of_ch o hn with ⟨f, hf, ho⟩
    rcases parse_int_exits conv o.optarg f.2.1 f.2.2 s with ⟨s1, hs1, -⟩
    refine ⟨EXIT_FAILURE, s1, ?_⟩
    rw [ho, dispatch_numeric conv f hf]
    simp [harg, hs1]
  · by_cases hh : o.ch = chr 'h' ∨ o.ch = HELP
    · exact ⟨_, _, dispatch_help conv o s hh⟩
    · refine ⟨_, _, dispatch_unrecognized conv o s ?_⟩
      simp only [recognizedValues, List.mem_append, List.mem_cons, List.mem_singleton,
        List.not_mem_nil, or_false]
      tauto

theorem optionLoop_exited (conv : String → Int) (o : Scanned) (rest : List Scanned)
    (s s1 : Proc) (status : Int) (h : dispatch conv o s = Flow.exited status s1) :
    optionLoop conv (o :: rest) s = Flow.exited status s1 := by
  simp [optionLoop, h]

theorem optionLoop_skip (conv : String → Int) (pre rest : List Scanned) (s : Proc)
    (h : ∀ p ∈ pre, placeholder p = true) :
    optionLoop conv (pre ++ rest) s = optionLoop conv rest s := by
  induction pre with
  | nil => rfl
  | cons p ps ih =>
    have hp := dispatch_placeholder conv p s (h p (List.mem_cons_self p ps))
    have hps : ∀ q ∈ ps, placeholder q = true := fun q hq => h q (List.mem_cons_of_mem p hq)
    simp [optionLoop, hp, ih hps]

theorem optionLoop_all_placeholders (conv : String → Int) (opts : List Scanned) (s : Proc)
    (h : ∀ p ∈ opts, placeholder p = true) :
    optionLoop conv opts s = Flow.running s := by
  have := optionLoop_skip conv opts [] s h
  simpa [optionLoop] using this

/-- The program stops at the first option that is not a placeholder, with the result of
its `case`. -/
theorem main_first_effective (conv : String → Int) (pre : List Scanned) (o : Scanned)
    (rest : List Scanned) (hpre : ∀ p ∈ pre, placeholder p = true)
    (ho : placeholder o = false) :
    main conv (pre ++ o :: rest) = dispatch conv o start := by
  rcases dispatch_exits conv o start ho with ⟨status, s1, hd⟩
  simp [main, optionLoop_skip conv pre (o :: rest) start hpre,
    optionLoop_exited conv o rest start s1 status hd, hd]

/-- Every option list splits at its first option that is not a placeholder, if any. -/
theorem split_at_first_effective (opts : List Scanned) :
    (∀ p ∈ opts, placeholder p = true) ∨
    ∃ pre o rest, opts = pre ++ o :: rest ∧ (∀ p ∈ pre, placeholder p = true) ∧
      placeholder o = false := by
  induction opts with
  | nil => left; simp
  | cons a t ih =>
    by_cases ha : placeholder a = true
    · rcases ih with h | ⟨pre, o, rest, rfl, hpre, ho⟩
      · left
        intro p hp
        rcases List.mem_cons.mp hp with rfl | hp
        · exact ha
        · exact h p hp
      · right
        refine ⟨a :: pre, o, rest, rfl, ?_, ho⟩
        intro p hp
        rcases List.mem_cons.mp hp with rfl | hp
        · exact ha
        · exact hpre p hp
    · right
      exact ⟨[], a, t, rfl, by simp, by simpa using ha⟩

theorem main_all_placeholders (conv : String → Int) (opts : List Scanned)
    (h : ∀ p ∈ opts, placeholder p = true) :
    main conv opts = Flow.running (printConfig start) := by
  simp [main, optionLoop_all_placeholders conv opts start h]

theorem not_placeholder_of_value (f : Int × Var × String) (v : String) (hv : v ≠ "-") :
    placeholder ⟨f.1, v⟩ = false := by
  simp [placeholder, hv]

/-- Once the option list holds an option that is not a placeholder, the loop cannot run
to its end, whatever stands before that option. -/
theorem optionLoop_stops (conv : String → Int) (pre : List Scanned) (o : Scanned)
    (rest : List Scanned) (ho : placeholder o = false) (s : Proc) :
    ∃ status s1, optionLoop conv (pre ++ o :: rest) s = Flow.exited status s1 := by
  induction pre generalizing s with
  | nil =>
    rcases dispatch_exits conv o s ho with ⟨status, s1, hd⟩
    exact ⟨status, s1, optionLoop_exited conv o rest s s1 status hd⟩
  | cons p ps ih =>
    cases hd : dispatch conv p s with
    | running s2 =>
      rcases ih s2 with ⟨status, s1, h1⟩
      exact ⟨status, s1, by simp [optionLoop, hd, h1]⟩
    | exited status s2 => exact ⟨status, s2, by simp [optionLoop, hd]⟩

/-! ## The properties -/

/-- C1. With no option at all the loop of `main` ends at once: the program reaches the
completed state with width 1024, height 768, 16 and 12 cells and 4 layers, and standard
output holds exactly the five report lines, in the order width, height, cells in x,
cells in y, layers; nothing is written to the error stream. -/
theorem main_no_options (conv : String → Int) :
    main conv [] = Flow.running
      { cfg := { width := 1024, height := 768, x := 16, y := 12, z := 4 },
        out := [ "window width: 1024\n", "window height: 768\n", "cells in x: 16\n",
                 "cells in y: 12\n", "layers: 4\n" ],
        err := [] } := by
  rfl

/-- C2 (evaluation at the failing input). For `-w 800 -g 600` and for
`--width=800 --height=600` the program does not complete: `parse_int` stores 800 in
`width` and then calls `exit(EXIT_FAILURE)`; the height option is never looked at, the
height stays 768 and nothing is printed. -/
theorem main_width_height_exits :
    main atoi [⟨chr 'w', "800"⟩, ⟨chr 'g', "600"⟩] =
        Flow.exited EXIT_FAILURE
          { cfg := { width := 800, height := 768, x := 16, y := 12, z := 4 },
            out := [], err := [] } ∧
    main atoi [⟨WINDOW_WIDTH, "800"⟩, ⟨WINDOW_HEIGHT, "600"⟩] =
        Flow.exited EXIT_FAILURE
          { cfg := { width := 800, height := 768, x := 16, y := 12, z := 4 },
            out := [], err := [] } := by
  decide

/-- C4. Let the first option be one of the five numeric options, in short or long form,
with a value other than "-" whose conversion is not greater than zero. Then the program
exits with status 1, the error stream holds the one line
"`NAME` must be a number greater than zero!" where NAME is the long name of the option,
nothing is written to standard output, and all five variables still have their initial
values. -/
theorem invalid_value_fails (conv : String → Int) (f : Int × Var × String)
    (hf : f ∈ numericForms) (v : String) (hv : v ≠ "-") (hc : conv v ≤ 0)
    (rest : List Scanned) :
    main conv (⟨f.1, v⟩ :: rest) =
      Flow.exited 1
        { cfg := { width := 1024, height := 768, x := 16, y := 12, z := 4 },
          out := [],
          err := ["`" ++ f.2.2 ++ "` must be a number greater than zero!\n"] } := by
  have h := main_first_effective conv [] ⟨f.1, v⟩ rest (by simp)
    (not_placeholder_of_value f v hv)
  rw [List.nil_append] at h
  rw [h, dispatch_numeric conv f hf, if_pos hv, parse_int_invalid conv v f.2.1 f.2.2 start hc]
  rfl

theorem invalid_value_fails_witness :
    ((chr 'x', Var.x, "cells-in-x") ∈ numericForms ∧ "0" ≠ "-" ∧ atoi "0" ≤ 0 ∧
      "abc" ≠ "-" ∧ atoi "abc" ≤ 0) ∧
    main atoi (⟨chr 'x', "0"⟩ :: [⟨chr 'w', "800"⟩]) =
      Flow.exited 1
        { cfg := { width := 1024, height := 768, x := 16, y := 12, z := 4 },
          out := [],
          err := ["`cells-in-x` must be a number greater than zero!\n"] } ∧
    main atoi (⟨chr 'x', "abc"⟩ :: []) =
      Flow.exited 1
        { cfg := { width := 1024, height := 768, x := 16, y := 12, z := 4 },
          out := [],
          err := ["`cells-in-x` must be a number greater than zero!\n"] } :=
  ⟨by decide,
   invalid_value_fails atoi (chr 'x', Var.x, "cells-in-x") (by decide) "0" (by decide)
     (by decide) [⟨chr 'w', "800"⟩],
   invalid_value_fails atoi (chr 'x', Var.x, "cells-in-x") (by decide) "abc" (by decide)
     (by decide) []⟩

/-- C5. A numeric option, short or long, whose value is the placeholder "-" returns control
to the loop with the process state untouched: the five variables, standard output and
the error stream are as before, for every conversion function (`parse_int`, the only
caller of the conversion, is not entered: it never returns control). The loop then goes
on with the next option. In particular `-w -` alone completes with the initial
configuration, width 1024 included. -/
theorem placeholder_skips (conv : String → Int) (f : Int × Var × String)
    (hf : f ∈ numericForms) (s : Proc) (rest : List Scanned) :
    dispatch conv ⟨f.1, "-"⟩ s = Flow.running s ∧
    optionLoop conv (⟨f.1, "-"⟩ :: rest) s = optionLoop conv rest s ∧
    main conv [⟨chr 'w', "-"⟩] = Flow.running
      { cfg := { width := 1024, height := 768, x := 16, y := 12, z := 4 },
        out := [ "window width: 1024\n", "window height: 768\n", "cells in x: 16\n",
                 "cells in y: 12\n", "layers: 4\n" ],
        err := [] } := by
  have hd : dispatch conv ⟨f.1, "-"⟩ s = Flow.running s := by
    rw [dispatch_numeric conv f hf]
    simp
  refine ⟨hd, by simp [optionLoop, hd], ?_⟩
  rw [main_all_placeholders conv [⟨chr 'w', "-"⟩] (by decide)]
  rfl

theorem placeholder_skips_witness :
    (LAYERS, Var.z, "layers") ∈ numericForms ∧
    dispatch atoi ⟨LAYERS, "-"⟩
        { cfg := { width := 800, height := 600, x := 1, y := 2, z := 3 },
          out := ["a"], err := ["b"] } =
      Flow.running
        { cfg := { width := 800, height := 600, x := 1, y := 2, z := 3 },
          out := ["a"], err := ["b"] } :=
  ⟨by decide,
   (placeholder_skips atoi (LAYERS, Var.z, "layers") (by decide)
      { cfg := { width := 800, height := 600, x := 1, y := 2, z := 3 },
        out := ["a"], err := ["b"] } []).1⟩

/-- C7. Whenever the program reaches the completed state, each of the five variables
width, height, x, y and z is strictly positive. -/
theorem completed_positive (conv : String → Int) (opts : List Scanned) (s : Proc)
    (h : main conv opts = Flow.running s) :
    0 < s.cfg.width ∧ 0 < s.cfg.height ∧ 0 < s.cfg.x ∧ 0 < s.cfg.y ∧ 0 < s.cfg.z := by
  rcases split_at_first_effective opts with hall | ⟨pre, o, rest, rfl, hpre, ho⟩
  · rw [main_all_placeholders conv opts hall] at h
    injection h with h
    subst h
    decide
  · rcases dispatch_exits conv o start ho with ⟨status, s1, hd⟩
    rw [main_first_effective conv pre o rest hpre ho, hd] at h
    exact Flow.noConfusion h

theorem completed_positive_witness :
    main atoi [⟨chr 'z', "-"⟩, ⟨WINDOW_WIDTH, "-"⟩] = Flow.running (printConfig start) ∧
    (0 < (printConfig start).cfg.width ∧ 0 < (printConfig start).cfg.height ∧
      0 < (printConfig start).cfg.x ∧ 0 < (printConfig start).cfg.y ∧
      0 < (printConfig start).cfg.z) :=
  ⟨by decide,
   completed_positive atoi [⟨chr 'z', "-"⟩, ⟨WINDOW_WIDTH, "-"⟩] (printConfig start)
     (by decide)⟩

/-- C8 (evaluation). The option lines of the usage text carry the short letters
w, g, x, y, z, h, which are the letters of the short-option string, and the defaults
1024, 768, 16, 12, 4, which are the initial values of the variables; but the long names
they show are width, height, cell-in-x, cell-in-y, layers, help, while the option table
holds cells-in-x and cells-in-y. The names cell-in-x and cell-in-y are in no row of the
table, not even as the beginning of a name. -/
theorem usage_names_differ_from_table :
    usageEntries =
      [ ('w', "width", some 1024), ('g', "height", some 768), ('x', "cell-in-x", some 16),
        ('y', "cell-in-y", some 12), ('z', "layers", some 4), ('h', "help", none) ] ∧
    options.map (fun o => o.name) =
      ["width", "height", "cells-in-x", "cells-in-y", "layers", "help"] ∧
    usageEntries.map (fun e => e.1) = optstring.toList.filter (fun c => c != ':') ∧
    usageEntries.filterMap (fun e => e.2.2) =
      [defaults.width.toNat, defaults.height.toNat, defaults.x.toNat, defaults.y.toNat,
        defaults.z.toNat] ∧
    usageEntries.map (fun e => e.2.1) ≠ options.map (fun o => o.name) ∧
    (∀ o ∈ options, "cell-in-x".toList.isPrefixOf o.name.toList = false ∧
      "cell-in-y".toList.isPrefixOf o.name.toList = false) := by
  decide

/-- C9. For each numeric option, short or long, and every value other than "-",
whatever state the loop is in, `parse_int` ends the process with status 1 and so do the
`switch` and the loop, whatever options follow; nothing is added to standard output.
An option list that holds such an option anywhere never reaches the completed state, so
its configuration is never printed. When the converted value is positive, the state at
the exit is written out variable by variable: `parse_int` on a pointer to `width`
(`height`, `x`, `y`, `z`) exits with that variable holding the converted value and the
four other variables, standard output and the error stream as they were, and the
`switch` and the loop do the same for `-w`/`--width` (`-g`/`--height`,
`-x`/`--cells-in-x`, `-y`/`--cells-in-y`, `-z`/`--layers`). -/
theorem parse_int_always_exits (conv : String → Int) (f : Int × Var × String)
    (hf : f ∈ numericForms) (v : String) (hv : v ≠ "-") (s : Proc)
    (pre rest : List Scanned) :
    (∃ s1, parse_int conv v f.2.1 f.2.2 s = Flow.exited 1 s1 ∧
      dispatch conv ⟨f.1, v⟩ s = Flow.exited 1 s1 ∧
      optionLoop conv (⟨f.1, v⟩ :: rest) s = Flow.exited 1 s1 ∧
      s1.out = s.out ∧
      (0 < conv v → s1.err = s.err ∧ s1.cfg = s.cfg.assign f.2.1 (conv v))) ∧
    (∀ t, main conv (pre ++ ⟨f.1, v⟩ :: rest) ≠ Flow.running t) ∧
    (0 < conv v →
      (∀ name, parse_int conv v Var.width name s =
          Flow.exited 1
          { cfg := { width := conv v, height := s.cfg.height, x := s.cfg.x, y := s.cfg.y, z := s.cfg.z },
            out := s.out, err := s.err }) ∧
      (∀ name, parse_int conv v Var.height name s =
          Flow.exited 1
          { cfg := { width := s.cfg.width, height := conv v, x := s.cfg.x, y := s.cfg.y, z := s.cfg.z },
            out := s.out, err := s.err }) ∧
      (∀ name, parse_int conv v Var.x name s =
          Flow.exited 1
          { cfg := { width := s.cfg.width, height := s.cfg.height, x := conv v, y := s.cfg.y, z := s.cfg.z },
            out := s.out, err := s.err }) ∧
      (∀ name, parse_int conv v Var.y name s =
          Flow.exited 1
          { cfg := { width := s.cfg.width, height := s.cfg.height, x := s.cfg.x, y := conv v, z := s.cfg.z },
            out := s.out, err := s.err }) ∧
      (∀ name, parse_int conv v Var.z name s =
          Flow.exited 1
          { cfg := { width := s.cfg.width, height := s.cfg.height, x := s.cfg.x, y := s.cfg.y, z := conv v },
            out := s.out, err := s.err }) ∧
      (∀ ch, ch = chr 'w' ∨ ch = WINDOW_WIDTH →
        dispatch conv ⟨ch, v⟩ s =
          Flow.exited 1
          { cfg := { width := conv v, height := s.cfg.height, x := s.cfg.x, y := s.cfg.y, z := s.cfg.z },
            out := s.out, err := s.err } ∧
        optionLoop conv (⟨ch, v⟩ :: rest) s =
          Flow.exited 1
          { cfg := { width := conv v, height := s.cfg.height, x := s.cfg.x, y := s.cfg.y, z := s.cfg.z },
            out := s.out, err := s.err }) ∧
      (∀ ch, ch = chr 'g' ∨ ch = WINDOW_HEIGHT →
        dispatch conv ⟨ch, v⟩ s =
          Flow.exited 1
          { cfg := { width := s.cfg.width, height := conv v, x := s.cfg.x, y := s.cfg.y, z := s.cfg.z },
            out := s.out, err := s.err } ∧
        optionLoop conv (⟨ch, v⟩ :: rest) s =
          Flow.exited 1
          { cfg := { width := s.cfg.width, height := conv v, x := s.cfg.x, y := s.cfg.y, z := s.cfg.z },
            out := s.out, err := s.err }) ∧
      (∀ ch, ch = chr 'x' ∨ ch = CELLS_IN_X →
        dispatch conv ⟨ch, v⟩ s =
          Flow.exited 1
          { cfg := { width := s.cfg.width, height := s.cfg.height, x := conv v, y := s.cfg.y, z := s.cfg.z },
            out := s.out, err := s.err } ∧
        optionLoop conv (⟨ch, v⟩ :: rest) s =
          Flow.exited 1
          { cfg := { width := s.cfg.width, height := s.cfg.height, x := conv v, y := s.cfg.y, z := s.cfg.z },
            out := s.out, err := s.err }) ∧
      (∀ ch, ch = chr 'y' ∨ ch = CELLS_IN_Y →
        dispatch conv ⟨ch, v⟩ s =
          Flow.exited 1
          { cfg := { width := s.cfg.width, height := s.cfg.height, x := s.cfg.x, y := conv v, z := s.cfg.z },
            out := s.out, err := s.err } ∧
        optionLoop conv (⟨ch, v⟩ :: rest) s =
          Flow.exited 1
          { cfg := { width := s.cfg.width, height := s.cfg.height, x := s.cfg.x, y := conv v, z := s.cfg.z },
            out := s.out, err := s.err }) ∧
      (∀ ch, ch = chr 'z' ∨ ch = LAYERS →
        dispatch conv ⟨ch, v⟩ s =
          Flow.exited 1
          { cfg := { width := s.cfg.width, height := s.cfg.height, x := s.cfg.x, y := s.cfg.y, z := conv v },
            out := s.out, err := s.err } ∧
        optionLoop conv (⟨ch, v⟩ :: rest) s =
          Flow.exited 1
          { cfg := { width := s.cfg.width, height := s.cfg.height, x := s.cfg.x, y := s.cfg.y, z := conv v },
            out := s.out, err := s.err })) := by
  refine ⟨?_, ?_, ?_⟩
  · rcases parse_int_exits conv v f.2.1 f.2.2 s with ⟨s1, hs1, hout⟩
    have hd : dispatch conv ⟨f.1, v⟩ s = Flow.exited 1 s1 := by
      rw [dispatch_numeric conv f hf, if_pos hv]
      exact hs1
    refine ⟨s1, hs1, hd, optionLoop_exited conv _ rest s s1 1 hd, hout, ?_⟩
    intro hpos
    rw [parse_int_valid conv v f.2.1 f.2.2 s hpos] at hs1
    injection hs1 with _ h2
    subst h2
    exact ⟨rfl, rfl⟩
  · intro t ht
    rcases optionLoop_stops conv pre ⟨f.1, v⟩ rest (not_placeholder_of_value f v hv) start
      with ⟨status, s1, h1⟩
    simp [main, h1] at ht
  · intro hpos
    have hp : ∀ (n : Var) (name : String), parse_int conv v n name s =
        Flow.exited 1 { s with cfg := s.cfg.assign n (conv v) } :=
      fun n name => parse_int_valid conv v n name s hpos
    have hloop : ∀ (ch : Int) (s1 : Proc), dispatch conv ⟨ch, v⟩ s = Flow.exited 1 s1 →
        dispatch conv ⟨ch, v⟩ s = Flow.exited 1 s1 ∧
        optionLoop conv (⟨ch, v⟩ :: rest) s = Flow.exited 1 s1 :=
      fun ch s1 h => ⟨h, optionLoop_exited conv ⟨ch, v⟩ rest s s1 1 h⟩
    refine ⟨fun name => hp _ name, fun name => hp _ name, fun name => hp _ name,
      fun name => hp _ name, fun name => hp _ name, ?_, ?_, ?_, ?_, ?_⟩ <;>
    · intro ch hch
      apply hloop
      rcases hch with rfl | rfl <;>
        simp [dispatch, hv, hp, Config.assign, chr, WINDOW_WIDTH, WINDOW_HEIGHT, CELLS_IN_X,
          CELLS_IN_Y, LAYERS, HELP]

theorem parse_int_always_exits_witness :
    ((chr 'g', Var.height, "height") ∈ numericForms ∧ "600" ≠ "-" ∧ atoi "600" = 600 ∧
      0 < atoi "600") ∧
    (∀ t, main atoi ([⟨chr '?', ""⟩] ++ ⟨chr 'g', "600"⟩ :: [⟨chr 'w', "800"⟩]) ≠
      Flow.running t) ∧
    parse_int atoi "600" Var.height "height"
        { cfg := { width := 7, height := 8, x := 9, y := 10, z := 11 },
          out := ["a"], err := ["b"] } =
      Flow.exited 1
        { cfg := { width := 7, height := atoi "600", x := 9, y := 10, z := 11 },
          out := ["a"], err := ["b"] } ∧
    dispatch atoi ⟨WINDOW_HEIGHT, "600"⟩
        { cfg := { width := 7, height := 8, x := 9, y := 10, z := 11 },
          out := ["a"], err := ["b"] } =
      Flow.exited 1
        { cfg := { width := 7, height := atoi "600", x := 9, y := 10, z := 11 },
          out := ["a"], err := ["b"] } ∧
    optionLoop atoi (⟨chr 'z', "600"⟩ :: [⟨chr 'w', "800"⟩])
        { cfg := { width := 7, height := 8, x := 9, y := 10, z := 11 },
          out := ["a"], err := ["b"] } =
      Flow.exited 1
        { cfg := { width := 7, height := 8, x := 9, y := 10, z := atoi "600" },
          out := ["a"], err := ["b"] } :=
  have h := parse_int_always_exits atoi (chr 'g', Var.height, "height") (by decide) "600"
    (by decide) { cfg := { width := 7, height := 8, x := 9, y := 10, z := 11 },
                  out := ["a"], err := ["b"] } [⟨chr '?', ""⟩] [⟨chr 'w', "800"⟩]
  have hpos := h.2.2 (by decide)
  ⟨by decide, h.2.1, hpos.2.1 "height",
   (hpos.2.2.2.2.2.2.1 WINDOW_HEIGHT (Or.inr rfl)).1,
   (hpos.2.2.2.2.2.2.2.2.2 (chr 'z') (Or.inl rfl)).2⟩

/-- C10. An option list reaches the completed state exactly when each of its options is a
numeric option with the placeholder value "-", and the completed state then holds the
initial configuration 1024, 768, 16, 12, 4 with the five report lines as its only output.
Otherwise the result of the program is the result of the `switch` on the leftmost
option that is not such a placeholder, taken in the initial state; it does not depend
on the options after it: status 0 with the usage text for help, status 1 from
`parse_int` for a numeric option, status 1 with the usage text for anything else. -/
theorem completed_iff_all_placeholders (conv : String → Int) (opts : List Scanned) :
    ((∃ s, main conv opts = Flow.running s) ↔ ∀ o ∈ opts, placeholder o = true) ∧
    (∀ s, main conv opts = Flow.running s →
      s.cfg = { width := 1024, height := 768, x := 16, y := 12, z := 4 } ∧
      s = printConfig start) ∧
    (∀ pre o rest, opts = pre ++ o :: rest → (∀ p ∈ pre, placeholder p = true) →
      placeholder o = false →
        main conv opts = dispatch conv o start ∧
        (∀ rest1, main conv (pre ++ o :: rest1) = main conv opts) ∧
        ((o.ch = chr 'h' ∨ o.ch = HELP) →
          dispatch conv o start = Flow.exited 0 (usage start)) ∧
        (∀ f ∈ numericForms, o.ch = f.1 →
          dispatch conv o start = parse_int conv o.optarg f.2.1 f.2.2 start ∧
          ∃ s1, dispatch conv o start = Flow.exited 1 s1) ∧
        (o.ch ∉ recognizedValues →
          dispatch conv o start = Flow.exited 1 (usage start))) := by
  have hcompl : ∀ s, main conv opts = Flow.running s →
      (∀ o ∈ opts, placeholder o = true) := by
    intro s h
    rcases split_at_first_effective opts with hall | ⟨pre, o, rest, rfl, hpre, ho⟩
    · exact hall
    · rcases dispatch_exits conv o start ho with ⟨status, s1, hd⟩
      rw [main_first_effective conv pre o rest hpre ho, hd] at h
      exact Flow.noConfusion h
  refine ⟨⟨fun ⟨s, h⟩ => hcompl s h, fun hall => ⟨_, main_all_placeholders conv opts hall⟩⟩,
    ?_, ?_⟩
  · intro s h
    rw [main_all_placeholders conv opts (hcompl s h)] at h
    injection h with h
    subst h
    exact ⟨rfl, rfl⟩
  · intro pre o rest hopts hpre ho
    subst hopts
    refine ⟨main_first_effective conv pre o rest hpre ho, ?_,
      fun hh => dispatch_help conv o start hh, ?_,
      fun hu => dispatch_unrecognized conv o start hu⟩
    · intro rest1
      rw [main_first_effective conv pre o rest1 hpre ho,
        main_first_effective conv pre o rest hpre ho]
    · intro f hf hch
      have harg : o.optarg ≠ "-" := by
        intro heq
        have hmem : o.ch ∈ numericForms.map (fun f => f.1) :=
          List.mem_map.mpr ⟨f, hf, hch.symm⟩
        simp [placeholder, hmem, heq] at ho
      have ho2 : o = ⟨f.1, o.optarg⟩ := by cases o; simp_all
      have hd : dispatch conv o start = parse_int conv o.optarg f.2.1 f.2.2 start := by
        rw [ho2, dispatch_numeric conv f hf, if_pos harg]
      refine ⟨hd, ?_⟩
      rcases parse_int_exits conv o.optarg f.2.1 f.2.2 start with ⟨s1, hs1, -⟩
      exact ⟨s1, hd.trans hs1⟩

theorem completed_iff_all_placeholders_witness :
    ((∃ s, main atoi [⟨chr 'y', "-"⟩, ⟨chr 'w', "800"⟩, ⟨chr 'h', ""⟩] = Flow.running s) ↔
      ∀ o ∈ [(⟨chr 'y', "-"⟩ : Scanned), ⟨chr 'w', "800"⟩, ⟨chr 'h', ""⟩],
        placeholder o = true) ∧
    main atoi [⟨chr 'y', "-"⟩, ⟨chr 'w', "800"⟩, ⟨chr 'h', ""⟩] =
      dispatch atoi ⟨chr 'w', "800"⟩ start ∧
    main atoi [⟨chr 'y', "-"⟩, ⟨chr 'w', "800"⟩, ⟨chr 'h', ""⟩] =
      Flow.exited 1
        { cfg := { width := 800, height := 768, x := 16, y := 12, z := 4 },
          out := [], err := [] } :=
  ⟨(completed_iff_all_placeholders atoi
      [⟨chr 'y', "-"⟩, ⟨chr 'w', "800"⟩, ⟨chr 'h', ""⟩]).1,
   ((completed_iff_all_placeholders atoi
      [⟨chr 'y', "-"⟩, ⟨chr 'w', "800"⟩, ⟨chr 'h', ""⟩]).2.2
        [⟨chr 'y', "-"⟩] ⟨chr 'w', "800"⟩ [⟨chr 'h', ""⟩] rfl (by decide) (by decide)).1,
   by decide⟩

end Triangle
